import Mathlib

/-!
Shallow embedding of the hadoku-contact-ui contact-form widget.

Sources embedded here:
- `src/src/ContactForm.tsx` (ContactForm orchestrator, AppointmentPicker,
  TimeSlotPicker);
- `src/src/components/AppointmentCalendar.tsx` (24-hour-notice date gating);
- `src/src/components/MeetingPlatformSelector.tsx` (the four platform values);
- `src/unnamed/part_005` (`api/appointments.ts`: the submission client and its
  error taxonomy);
- `src/unnamed/part_006` (`types.ts`: the data model).

Conventions: TS `T | null` / optional fields become `Option T`; JS string
falsiness (`""` and `undefined`/`null` are falsy) is modelled explicitly where
the code relies on `||`; the single-threaded event-driven execution of the
picker is modelled as a step function over an explicit state record, with one
ghost field (`pending`) recording which loadSlots requests are in flight.
-/

namespace Hadoku

/-- `MeetingPlatform` from types.ts: 'discord' | 'google' | 'teams' | 'jitsi'. -/
inductive MeetingPlatform
  | discord
  | google
  | teams
  | jitsi
deriving DecidableEq

/-- `TimeSlotDuration` from types.ts: 15 | 30 | 60 (minutes). -/
inductive TimeSlotDuration
  | d15
  | d30
  | d60
deriving DecidableEq

/-- `AppointmentSlot` from types.ts. -/
structure AppointmentSlot where
  id : String
  startTime : String
  endTime : String
  available : Bool
deriving DecidableEq

/-- A JS `Date` interpreted in local time: local calendar day index plus
milliseconds elapsed within that day.  JS `<` on Dates compares timestamps,
which for this representation is the lexicographic order. -/
structure LocalDateTime where
  day : Int
  msOfDay : Nat
deriving DecidableEq

/-- JS `a < b` on two Dates (timestamp order; lexicographic here). -/
def ldtLt (a b : LocalDateTime) : Bool :=
  a.day < b.day || (a.day == b.day && a.msOfDay < b.msOfDay)

/-- `getTomorrowDate` from AppointmentCalendar.tsx: now plus one day, with
hours/minutes/seconds/ms zeroed — i.e. tomorrow at local midnight. -/
def getTomorrowDate (now : LocalDateTime) : LocalDateTime :=
  { day := now.day + 1, msOfDay := 0 }

/-- `tileDisabled` from AppointmentCalendar.tsx: `date < getTomorrowDate()`. -/
def tileDisabled (now date : LocalDateTime) : Bool :=
  ldtLt date (getTomorrowDate now)

/-- `AppointmentSelection` from types.ts. -/
structure AppointmentSelection where
  date : Option LocalDateTime
  duration : TimeSlotDuration
  selectedSlot : Option AppointmentSlot
  meetingPlatform : Option MeetingPlatform
deriving DecidableEq

/-- `FormData` from types.ts (`website` is the honeypot field). -/
structure FormData where
  name : String
  email : String
  message : String
  website : String
deriving DecidableEq

/-- `FormErrors` from types.ts (all fields optional). -/
structure FormErrors where
  name : Option String := none
  email : Option String := none
  message : Option String := none
  appointment : Option String := none
deriving DecidableEq

/-- `SubmitStatus` from types.ts. -/
inductive SubmitStatus
  | idle
  | submitting
  | success
  | error
deriving DecidableEq

/-- JS `String.prototype.trim` on the character list of a string: strip
leading and trailing whitespace. -/
def trimChars (l : List Char) : List Char :=
  ((l.dropWhile Char.isWhitespace).reverse.dropWhile Char.isWhitespace).reverse

/-- A character admitted by the regex character class `[^\s@]`. -/
def isEmailChar (c : Char) : Bool :=
  !c.isWhitespace && c != '@'

/-- Scanner for a `.` that still has at least one character after it. -/
def dotScan : List Char → Bool
  | [] => false
  | c :: t => (c == '.' && !t.isEmpty) || dotScan t

/-- Whether the list splits as `b ++ '.' :: c` with `b` and `c` nonempty. -/
def hasDotSplit : List Char → Bool
  | [] => false
  | _ :: t => dotScan t

/-- Matcher for the regex fragment `[^\s@]+\.[^\s@]+$` (everything after the
`@`): all characters in class `[^\s@]`, with an interior literal dot. -/
def emailAfterAt (l : List Char) : Bool :=
  l.all isEmailChar && hasDotSplit l

/-- Matcher for `[^\s@]*@[^\s@]+\.[^\s@]+$` given that at least one local-part
character has already been consumed. -/
def emailRest : List Char → Bool
  | [] => false
  | c :: t => if c == '@' then emailAfterAt t else isEmailChar c && emailRest t

/-- Matcher for the whole regex `^[^\s@]+@[^\s@]+\.[^\s@]+$` on a character
list. -/
def emailMatchL : List Char → Bool
  | [] => false
  | c :: t => isEmailChar c && emailRest t

/-- `/^[^\s@]+@[^\s@]+\.[^\s@]+$/.test value` from ContactForm.tsx. -/
def emailRegexTest (s : String) : Bool :=
  emailMatchL s.data

/-- Declarative reading of the regex `^[^\s@]+@[^\s@]+\.[^\s@]+$` on a
character list: the list is `a ++ '@' :: b ++ '.' :: c` with `a`, `b`, `c`
nonempty and drawn from the class `[^\s@]`. -/
def EmailShapeL (l : List Char) : Prop :=
  ∃ a b c : List Char,
    l = a ++ '@' :: (b ++ '.' :: c) ∧
    a ≠ [] ∧ b ≠ [] ∧ c ≠ [] ∧
    (∀ ch ∈ a, isEmailChar ch = true) ∧
    (∀ ch ∈ b, isEmailChar ch = true) ∧
    (∀ ch ∈ c, isEmailChar ch = true)

/-- The string matches the email pattern of the spec. -/
def EmailShape (s : String) : Prop :=
  EmailShapeL s.data

/-- `validators.name` from ContactForm.tsx. -/
def nameValidator (value : String) : Option String :=
  if value = "" ∨ (trimChars value.data).length = 0 then some "Name is required"
  else if (trimChars value.data).length < 2 then some "Name must be at least 2 characters"
  else none

/-- `validators.email` from ContactForm.tsx. -/
def emailValidator (value : String) : Option String :=
  if value = "" ∨ (trimChars value.data).length = 0 then some "Email is required"
  else if !emailRegexTest value then some "Please enter a valid email address"
  else none

/-- `validators.message` from ContactForm.tsx. -/
def messageValidator (value : String) : Option String :=
  if value = "" ∨ (trimChars value.data).length = 0 then some "Message is required"
  else if (trimChars value.data).length < 10 then some "Message must be at least 10 characters"
  else none

/-- `validateForm` from ContactForm.tsx, as the errors object it builds: the
three field validators plus the two sequential cross-field appointment checks
(the second assignment overwrites the first). -/
def validateFormErrors (fd : FormData) (sel : AppointmentSelection) : FormErrors :=
  let e0 : FormErrors :=
    { name := nameValidator fd.name
      email := emailValidator fd.email
      message := messageValidator fd.message }
  let e1 :=
    if sel.date.isSome && sel.selectedSlot.isNone then
      { e0 with appointment := some "Please select a time slot or clear the date selection" }
    else e0
  if sel.selectedSlot.isSome && sel.meetingPlatform.isNone then
    { e1 with appointment := some "Please select a meeting platform" }
  else e1

/-- `validateForm`'s boolean result: true iff the filtered errors object is
empty, i.e. every produced error is undefined. -/
def validateFormB (fd : FormData) (sel : AppointmentSelection) : Bool :=
  let e := validateFormErrors fd sel
  e.name.isNone && e.email.isNone && e.message.isNone && e.appointment.isNone

/-- `isFormValid` from ContactForm.tsx: the submit-enablement predicate. -/
def isFormValid (fd : FormData) (sel : AppointmentSelection) : Bool :=
  (nameValidator fd.name).isNone && (emailValidator fd.email).isNone &&
    (messageValidator fd.message).isNone &&
    !(sel.selectedSlot.isSome && sel.meetingPlatform.isNone)

/-- State of the AppointmentPicker component (ContactForm.tsx, second file):
its seven `useState` hooks, plus a ghost field `pending` that records the
(date, duration) pair each in-flight `loadSlots` call was issued for.  The
code itself keeps no such tag; the field only lets theorems talk about which
request a response belongs to. -/
structure PickerState where
  selectedDate : Option LocalDateTime
  duration : TimeSlotDuration
  availableSlots : List AppointmentSlot
  selectedSlot : Option AppointmentSlot
  meetingPlatform : Option MeetingPlatform
  loading : Bool
  error : Option String
  pending : List (LocalDateTime × TimeSlotDuration)
deriving DecidableEq

/-- Initial AppointmentPicker state: each `useState` initializer, with JS `||`
semantics (`initialSelection?.meetingPlatform || 'jitsi'`,
`initialSelection?.duration || 15`; durations are nonzero hence truthy). -/
def initPicker (initial : Option AppointmentSelection) : PickerState :=
  { selectedDate := initial.bind (fun i => i.date)
    duration := match initial with
      | some i => i.duration
      | none => .d15
    availableSlots := []
    selectedSlot := initial.bind (fun i => i.selectedSlot)
    meetingPlatform := match initial.bind (fun i => i.meetingPlatform) with
      | some p => some p
      | none => some .jitsi
    loading := false
    error := none
    pending := [] }

/-- `setSelectedSlot` update inside `loadSlots`: keep the previous selection
only if some slot in the fresh response has the same id and is available. -/
def reconcileSelected (prev : Option AppointmentSlot) (slots : List AppointmentSlot) :
    Option AppointmentSlot :=
  match prev with
  | some p => if (slots.find? (fun sl => sl.id == p.id && sl.available)).isSome then some p else none
  | none => none

/-- The events that drive the AppointmentPicker on its single logical thread:
user handlers, the imperative refresh command, and network completions.  A
`fetchResolved`/`fetchFailed` event carries the (date, duration) tag of the
request it answers; `platformChange` can only carry one of the four
`MeetingPlatform` values (MeetingPlatformSelector.tsx's PLATFORMS array). -/
inductive PickerEvent
  | dateChange (d : LocalDateTime)
  | durationChange (dur : TimeSlotDuration)
  | slotSelect (slot : AppointmentSlot)
  | platformChange (p : MeetingPlatform)
  | clearAppointment
  | refreshSlots
  | fetchResolved (tag : LocalDateTime × TimeSlotDuration) (slots : List AppointmentSlot)
  | fetchFailed (tag : LocalDateTime × TimeSlotDuration) (apiMessage : Option String)

/-- One step of the AppointmentPicker.  `dateChange`/`durationChange` fold in
the `useEffect` that calls `loadSlots` (which synchronously sets
`loading := true`, `error := none` and issues a request) when a date is set,
and clears the slot list when no date is set.  `fetchResolved` is the body of
`loadSlots` after `await`: it applies the response unconditionally — the code
never compares the response against the current (date, duration).
`fetchFailed` is the catch/finally path.  `refreshSlots` is the ref-exposed
command used by ContactForm. -/
def pickerStep (s : PickerState) : PickerEvent → PickerState
  | .dateChange d =>
      { s with selectedDate := some d, selectedSlot := none,
               loading := true, error := none,
               pending := s.pending ++ [(d, s.duration)] }
  | .durationChange dur =>
      match s.selectedDate with
      | some d =>
          { s with duration := dur, selectedSlot := none,
                   loading := true, error := none,
                   pending := s.pending ++ [(d, dur)] }
      | none =>
          { s with duration := dur, selectedSlot := none, availableSlots := [] }
  | .slotSelect slot =>
      { s with selectedSlot :=
          match s.selectedSlot with
          | some t => if t.id = slot.id then none else some slot
          | none => some slot }
  | .platformChange p => { s with meetingPlatform := some p }
  | .clearAppointment => { s with selectedSlot := none }
  | .refreshSlots =>
      match s.selectedDate with
      | some d =>
          { s with loading := true, error := none,
                   pending := s.pending ++ [(d, s.duration)] }
      | none => s
  | .fetchResolved tag slots =>
      { s with availableSlots := slots,
               selectedSlot := reconcileSelected s.selectedSlot slots,
               loading := false,
               pending := s.pending.erase tag }
  | .fetchFailed tag apiMessage =>
      { s with error := some (match apiMessage with
                 | some m => m
                 | none => "Failed to load available time slots. Please try again."),
               availableSlots := [], selectedSlot := none, loading := false,
               pending := s.pending.erase tag }

/-- Run the picker over a list of events. -/
def runPicker (s : PickerState) (evts : List PickerEvent) : PickerState :=
  evts.foldl pickerStep s

/-- The `AppointmentSelection` the picker's notification `useEffect` reports
to ContactForm. -/
def pickerSelection (s : PickerState) : AppointmentSelection :=
  { date := s.selectedDate, duration := s.duration,
    selectedSlot := s.selectedSlot, meetingPlatform := s.meetingPlatform }

/-- `conflict.reason` values from types.ts. -/
inductive ConflictReason
  | slot_taken
  | rate_limit
  | invalid_slot
deriving DecidableEq

/-- The `conflict` member of `SubmitContactResponse` (types.ts). -/
structure BackendConflict where
  reason : ConflictReason
  updatedSlots : Option (List AppointmentSlot) := none
deriving DecidableEq

/-- `SubmitContactResponse` from types.ts. -/
structure SubmitContactResponse where
  success : Bool
  message : Option String := none
  error : Option String := none
  errors : Option (List String) := none
  conflict : Option BackendConflict := none
deriving DecidableEq

/-- `AppointmentError['type']` from types.ts. -/
inductive AppointmentErrorType
  | conflict
  | network
  | validation
  | rate_limit
deriving DecidableEq

/-- `AppointmentAPIError` from api/appointments.ts (part_005). -/
structure AppointmentAPIError where
  type : AppointmentErrorType
  message : String
  retryable : Bool := false
  updatedSlots : Option (List AppointmentSlot) := none
deriving DecidableEq

/-- JS `a || b` on an optional string: `undefined`/`null` and `""` are falsy. -/
def jsOr (a : Option String) (b : String) : String :=
  match a with
  | some s => if s = "" then b else s
  | none => b

/-- JS `data.errors?.join(', ')`. -/
def joinErrors : Option (List String) → Option String
  | some es => some (String.intercalate ", " es)
  | none => none

/-- JS `response.ok`: status in the 2xx range. -/
def statusOk (st : Nat) : Bool :=
  200 ≤ st && st ≤ 299

/-- The chain of checks in `submitContactWithAppointment` after the 409 test
(part_005 lines 119-146): 429, then 400, then any other non-ok, else ok. -/
def afterConflictChecks (st : Nat) (data : SubmitContactResponse) :
    Except AppointmentAPIError SubmitContactResponse :=
  if st = 429 then
    .error { type := .rate_limit,
             message := jsOr data.message "Too many booking attempts. Please try again later.",
             retryable := false }
  else if !statusOk st ∧ st = 400 then
    .error { type := .validation,
             message := jsOr data.message (jsOr (joinErrors data.errors) "Validation error"),
             retryable := false }
  else if !statusOk st then
    .error { type := .network,
             message := jsOr data.message (jsOr data.error "Failed to submit contact form"),
             retryable := true }
  else
    .ok data

/-- `submitContactWithAppointment` from part_005 (live path; the dev-only mock
behind `shouldUseMockAPI` is out of scope).  The input is `none` when the
fetch or JSON parse itself throws — that is the outer catch, which wraps any
non-`AppointmentAPIError` into a generic network error. -/
def submitContactWithAppointment (reply : Option (Nat × SubmitContactResponse)) :
    Except AppointmentAPIError SubmitContactResponse :=
  match reply with
  | none =>
      .error { type := .network,
               message := "Network error. Please check your connection and try again.",
               retryable := true }
  | some (st, data) =>
      if st = 409 then
        match data.conflict with
        | some c =>
            .error { type := .conflict,
                     message :=
                       if c.reason = ConflictReason.slot_taken then
                         "Sorry, this time slot was just booked. Please select another time."
                       else jsOr data.message "Conflict occurred",
                     retryable := true,
                     updatedSlots := c.updatedSlots }
        | none => afterConflictChecks st data
      else afterConflictChecks st data

/-- The discriminant tag of a submission-client result, when it failed. -/
def errTag : Except AppointmentAPIError SubmitContactResponse → Option AppointmentErrorType
  | .error e => some e.type
  | .ok _ => none

/-- The message of a submission-client result, when it failed. -/
def errMsg : Except AppointmentAPIError SubmitContactResponse → Option String
  | .error e => some e.message
  | .ok _ => none

/-- The `bookedAppointment` record stored for the success banner
(ContactForm.tsx lines 33-38). -/
structure BookedAppointment where
  date : LocalDateTime
  startTime : String
  duration : TimeSlotDuration
  platform : MeetingPlatform
deriving DecidableEq

/-- ContactForm's own state hooks (ContactForm.tsx lines 16-38). -/
structure ContactFormState where
  formData : FormData
  status : SubmitStatus
  errorMessage : String
  errors : FormErrors
  appointmentSelection : AppointmentSelection
  conflictError : Bool
  bookedAppointment : Option BookedAppointment
deriving DecidableEq

/-- Externally visible effects of one submission step: how many times
`appointmentPickerRef.current?.refreshSlots()` was invoked, and the delay of
the `setTimeout` scheduled for the conflict path, if any. -/
structure SubmitEffects where
  refreshCalls : Nat
  conflictTimer : Option Nat
deriving DecidableEq

/-- How the awaited `submitContactWithAppointment` call came back to
`handleSubmit`: resolved with a response, rejected with an
`AppointmentAPIError`, or rejected with anything else. -/
inductive SubmitOutcome
  | resolved (resp : SubmitContactResponse)
  | rejectedApi (e : AppointmentAPIError)
  | rejectedOther

/-- `handleSubmit` up to the `await` (ContactForm.tsx lines 94-96). -/
def handleSubmitStart (s : ContactFormState) : ContactFormState :=
  { s with status := .submitting, errorMessage := "", conflictError := false }

/-- `handleSubmit` after the `await`: the try/catch continuation
(ContactForm.tsx lines 119-167). -/
def handleSubmitSettle (s : ContactFormState) : SubmitOutcome → ContactFormState × SubmitEffects
  | .resolved resp =>
      if resp.success then
        let booked : Option BookedAppointment :=
          match s.appointmentSelection.selectedSlot, s.appointmentSelection.date,
              s.appointmentSelection.meetingPlatform with
          | some slot, some d, some p =>
              some { date := d, startTime := slot.startTime,
                     duration := s.appointmentSelection.duration, platform := p }
          | _, _, _ => none
        ({ s with status := .success,
                  bookedAppointment := booked,
                  formData := { s.formData with message := "" },
                  appointmentSelection := { s.appointmentSelection with selectedSlot := none } },
         { refreshCalls := 1, conflictTimer := none })
      else
        ({ s with status := .error,
                  errorMessage := jsOr resp.message (jsOr resp.error "Failed to send message") },
         { refreshCalls := 0, conflictTimer := none })
  | .rejectedApi e =>
      let s1 := { s with status := SubmitStatus.error, errorMessage := e.message }
      if e.type = .conflict ∧ e.updatedSlots.isSome then
        ({ s1 with conflictError := true },
         { refreshCalls := 0, conflictTimer := some 2000 })
      else
        (s1, { refreshCalls := 0, conflictTimer := none })
  | .rejectedOther =>
      ({ s with status := .error,
                errorMessage := "Network error. Please check your connection and try again." },
       { refreshCalls := 0, conflictTimer := none })

/-- Whole `handleSubmit` for one attempt whose network outcome is `outcome`:
the `validateForm()` call stores the errors object and gates the rest. -/
def handleSubmit (s : ContactFormState) (outcome : SubmitOutcome) :
    ContactFormState × SubmitEffects :=
  let s0 := { s with errors := validateFormErrors s.formData s.appointmentSelection }
  if validateFormB s.formData s.appointmentSelection then
    handleSubmitSettle (handleSubmitStart s0) outcome
  else (s0, { refreshCalls := 0, conflictTimer := none })

/-- The callback of the conflict-path `setTimeout` (ContactForm.tsx lines
159-162): one `refreshSlots()` call, then clear the conflict flag. -/
def conflictTimerFire (s : ContactFormState) : ContactFormState × SubmitEffects :=
  ({ s with conflictError := false }, { refreshCalls := 1, conflictTimer := none })

/-- `handleSubmit` driven end-to-end by an HTTP reply through the submission
client: a resolved client call becomes `resolved`, a thrown
`AppointmentAPIError` becomes `rejectedApi`. -/
def processReply (s : ContactFormState) (reply : Option (Nat × SubmitContactResponse)) :
    ContactFormState × SubmitEffects :=
  handleSubmit s (match submitContactWithAppointment reply with
    | .ok resp => .resolved resp
    | .error e => .rejectedApi e)

/-- Concrete form fields that pass client-side validation (used by
witnesses). -/
def sampleFormData : FormData :=
  { name := "Jo", email := "a@b.co", message := "helloworld", website := "" }

/-- Concrete appointment selection with no slot chosen. -/
def sampleSelection : AppointmentSelection :=
  { date := none, duration := .d15, selectedSlot := none, meetingPlatform := some .jitsi }

/-- Concrete available slot. -/
def sampleSlot : AppointmentSlot :=
  { id := "s1", startTime := "T900", endTime := "T915", available := true }

/-- Concrete appointment selection with date, slot and platform chosen. -/
def sampleBookedSelection : AppointmentSelection :=
  { date := some { day := 3, msOfDay := 0 }, duration := .d15,
    selectedSlot := some sampleSlot, meetingPlatform := some .jitsi }

/-- Concrete form state that passes validation, no appointment. -/
def sampleState : ContactFormState :=
  { formData := sampleFormData, status := .idle, errorMessage := "", errors := {},
    appointmentSelection := sampleSelection, conflictError := false,
    bookedAppointment := none }

/-- Concrete form state that passes validation, full appointment chosen. -/
def sampleBookedState : ContactFormState :=
  { sampleState with appointmentSelection := sampleBookedSelection }

/-! ### Helper lemmas -/

/-- `find?` succeeds exactly when `any` does. -/
theorem find?_isSome_eq_any {α : Type} (p : α → Bool) (l : List α) :
    (l.find? p).isSome = l.any p := by
  induction l with
  | nil => rfl
  | cons x t ih =>
      by_cases h : p x
      · simp [List.find?, List.any, h]
      · simp only [List.find?, List.any]
        rw [Bool.eq_false_iff.mpr h]
        simpa using ih

/-- `any` as an existential. -/
theorem any_iff_exists {α : Type} (p : α → Bool) (l : List α) :
    l.any p = true ↔ ∃ x ∈ l, p x = true := by
  induction l with
  | nil => simp
  | cons x t ih => simp [List.any, ih]

/-! ### C7: 24-hour-notice date gating -/

/-- C7: the calendar disables exactly the dates strictly before tomorrow at
local midnight, which are exactly the dates whose local calendar day is today
or earlier; every date on the next local day or later is accepted.  Selecting
a date always clears the previously selected slot (`handleDateChange`). -/
theorem dateGate_24h_notice :
    ∀ (now d : LocalDateTime) (s : PickerState),
      (tileDisabled now d = true ↔ ldtLt d (getTomorrowDate now) = true) ∧
      (tileDisabled now d = true ↔ d.day ≤ now.day) ∧
      (tileDisabled now d = false ↔ now.day + 1 ≤ d.day) ∧
      (pickerStep s (.dateChange d)).selectedSlot = none := by
  intro now d s
  have hday : tileDisabled now d = true ↔ d.day ≤ now.day := by
    simp only [tileDisabled, getTomorrowDate, ldtLt, Bool.or_eq_true, Bool.and_eq_true,
      decide_eq_true_eq, beq_iff_eq]
    omega
  refine ⟨Iff.rfl, hday, ?_, rfl⟩
  rw [Bool.eq_false_iff, ne_eq, hday]
  omega

/-! ### C8: slot-selection toggle semantics -/

/-- C8: `handleSlotSelect` toggles — selecting a slot whose id equals the
current selection's id clears the selection, selecting a slot with a
different id replaces the selection, and from an empty selection two
consecutive selections of the same slot end with no selection. -/
theorem slotSelect_toggle :
    ∀ (s : PickerState) (slot t : AppointmentSlot),
      (s.selectedSlot = some t → t.id = slot.id →
        (pickerStep s (.slotSelect slot)).selectedSlot = none) ∧
      (s.selectedSlot = some t → t.id ≠ slot.id →
        (pickerStep s (.slotSelect slot)).selectedSlot = some slot) ∧
      (s.selectedSlot = none →
        (pickerStep s (.slotSelect slot)).selectedSlot = some slot ∧
        (pickerStep (pickerStep s (.slotSelect slot)) (.slotSelect slot)).selectedSlot = none) := by
  intro s slot t
  refine ⟨?_, ?_, ?_⟩
  · intro hsel hid
    simp [pickerStep, hsel, hid]
  · intro hsel hid
    simp [pickerStep, hsel, hid]
  · intro hsel
    constructor
    · simp [pickerStep, hsel]
    · simp [pickerStep, hsel]

/-- Witness for C8 at a concrete state and slot. -/
theorem slotSelect_toggle_witness :
    (pickerStep (initPicker none)
      (.slotSelect { id := "s1", startTime := "a", endTime := "b", available := true })).selectedSlot =
      some { id := "s1", startTime := "a", endTime := "b", available := true } ∧
    (pickerStep (pickerStep (initPicker none)
      (.slotSelect { id := "s1", startTime := "a", endTime := "b", available := true }))
      (.slotSelect { id := "s1", startTime := "a", endTime := "b", available := true })).selectedSlot =
      none :=
  (slotSelect_toggle (initPicker none)
    { id := "s1", startTime := "a", endTime := "b", available := true }
    { id := "s1", startTime := "a", endTime := "b", available := true }).2.2 rfl

/-! ### C2: selection reconciliation after a completed fetch -/

/-- C2: after a completed slot fetch the new list replaces the old wholesale;
if no slot of the response has the previously selected slot's id and is
available (it disappeared, or is present but unavailable), the selection is
cleared to `none`; and whatever selection remains is the previous one and has
an available slot with its id in the freshly fetched list. -/
theorem fetchResolved_selection_invariant :
    ∀ (s : PickerState) (tag : LocalDateTime × TimeSlotDuration)
      (slots : List AppointmentSlot) (p : AppointmentSlot),
      ((pickerStep s (.fetchResolved tag slots)).availableSlots = slots) ∧
      (s.selectedSlot = some p →
        slots.all (fun sl => !(sl.id == p.id && sl.available)) = true →
        (pickerStep s (.fetchResolved tag slots)).selectedSlot = none) ∧
      (∀ q, (pickerStep s (.fetchResolved tag slots)).selectedSlot = some q →
        s.selectedSlot = some q ∧
        ∃ sl ∈ slots, sl.id = q.id ∧ sl.available = true) := by
  intro s tag slots p
  refine ⟨rfl, ?_, ?_⟩
  · intro hsel hall
    simp only [pickerStep, reconcileSelected, hsel]
    rw [if_neg]
    rw [find?_isSome_eq_any]
    intro hcontra
    rw [any_iff_exists] at hcontra
    obtain ⟨x, hx, hpx⟩ := hcontra
    rw [List.all_eq_true] at hall
    have := hall x hx
    rw [hpx] at this
    simp at this
  · intro q hq
    have hq' : reconcileSelected s.selectedSlot slots = some q := hq
    cases hsel : s.selectedSlot with
    | none =>
        rw [hsel] at hq'
        simp [reconcileSelected] at hq'
    | some t =>
        rw [hsel] at hq'
        simp only [reconcileSelected] at hq'
        by_cases hfind : (slots.find? (fun sl => sl.id == t.id && sl.available)).isSome = true
        · rw [if_pos hfind] at hq'
          have hqt : t = q := by simpa using hq'
          subst hqt
          refine ⟨rfl, ?_⟩
          rw [find?_isSome_eq_any, any_iff_exists] at hfind
          obtain ⟨x, hx, hpx⟩ := hfind
          rw [Bool.and_eq_true, beq_iff_eq] at hpx
          exact ⟨x, hx, hpx.1, hpx.2⟩
        · rw [if_neg hfind] at hq'
          simp at hq'

/-- Witness for C2: a selected slot whose id reappears only as unavailable is
cleared by the fetch completion. -/
theorem fetchResolved_selection_invariant_witness :
    (pickerStep
      { selectedDate := some { day := 1, msOfDay := 0 }, duration := .d15,
        availableSlots := [], meetingPlatform := some .jitsi, loading := true,
        error := none, pending := [],
        selectedSlot := some { id := "s1", startTime := "a", endTime := "b", available := true } }
      (.fetchResolved ({ day := 1, msOfDay := 0 }, .d15)
        [{ id := "s1", startTime := "a", endTime := "b", available := false }])).selectedSlot =
      none :=
  ((fetchResolved_selection_invariant _ _ _
      { id := "s1", startTime := "a", endTime := "b", available := true }).2.1) rfl (by decide)

/-! ### C1: what happens to out-of-order fetch responses -/

/-- C1 counterexample: the code does not discard responses for a superseded
(date, duration) pair.  The user picks day 1 (request issued for day 1), then
day 2 (request issued for day 2); the day-2 response arrives and is applied;
then the day-1 response — still in flight, for a pair that is no longer the
current selection — arrives and is also applied, replacing the slot list with
data that does not belong to the current selection. -/
theorem staleFetchApplied_counterexample :
    ((runPicker (initPicker none)
        [.dateChange { day := 1, msOfDay := 0 }, .dateChange { day := 2, msOfDay := 0 },
         .fetchResolved ({ day := 2, msOfDay := 0 }, .d15)
           [{ id := "b1", startTime := "B", endTime := "B2", available := true }]]).selectedDate =
      some { day := 2, msOfDay := 0 }) ∧
    (({ day := 1, msOfDay := 0 }, TimeSlotDuration.d15) ∈
      (runPicker (initPicker none)
        [.dateChange { day := 1, msOfDay := 0 }, .dateChange { day := 2, msOfDay := 0 },
         .fetchResolved ({ day := 2, msOfDay := 0 }, .d15)
           [{ id := "b1", startTime := "B", endTime := "B2", available := true }]]).pending) ∧
    ((runPicker (initPicker none)
        [.dateChange { day := 1, msOfDay := 0 }, .dateChange { day := 2, msOfDay := 0 },
         .fetchResolved ({ day := 2, msOfDay := 0 }, .d15)
           [{ id := "b1", startTime := "B", endTime := "B2", available := true }]]).availableSlots =
      [{ id := "b1", startTime := "B", endTime := "B2", available := true }]) ∧
    ((runPicker (initPicker none)
        [.dateChange { day := 1, msOfDay := 0 }, .dateChange { day := 2, msOfDay := 0 },
         .fetchResolved ({ day := 2, msOfDay := 0 }, .d15)
           [{ id := "b1", startTime := "B", endTime := "B2", available := true }],
         .fetchResolved ({ day := 1, msOfDay := 0 }, .d15)
           [{ id := "a1", startTime := "A", endTime := "A2", available := true }]]).availableSlots =
      [{ id := "a1", startTime := "A", endTime := "A2", available := true }]) ∧
    ([{ id := "a1", startTime := "A", endTime := "A2", available := true }] ≠
      [{ id := "b1", startTime := "B", endTime := "B2", available := true : AppointmentSlot }]) := by
  refine ⟨rfl, ?_, rfl, rfl, by decide⟩
  decide

/-- C1 as it actually holds on the code: `loadSlots`' continuation applies
every resolved response unconditionally — the slot list becomes the
response's slots, the selection is reconciled against them and loading ends —
with no comparison of the response's originating (date, duration) tag against
the current selection, so the last response to arrive wins even when its pair
has been superseded. -/
theorem fetchResolved_ignores_tag :
    ∀ (s : PickerState) (tag tag2 : LocalDateTime × TimeSlotDuration)
      (slots : List AppointmentSlot),
      (pickerStep s (.fetchResolved tag slots)).availableSlots = slots ∧
      (pickerStep s (.fetchResolved tag slots)).selectedSlot =
        reconcileSelected s.selectedSlot slots ∧
      (pickerStep s (.fetchResolved tag slots)).loading = false ∧
      (pickerStep s (.fetchResolved tag slots)).availableSlots =
        (pickerStep s (.fetchResolved tag2 slots)).availableSlots := by
  intro s tag tag2 slots
  exact ⟨rfl, rfl, rfl, rfl⟩

/-! ### Email regex: the executable matcher agrees with the declarative shape -/

/-- `dotScan` finds exactly the splits `b ++ '.' :: c` with `c` nonempty. -/
theorem dotScan_iff (l : List Char) :
    dotScan l = true ↔ ∃ b c, l = b ++ '.' :: c ∧ c ≠ [] := by
  induction l with
  | nil =>
      constructor
      · intro h
        simp [dotScan] at h
      · rintro ⟨b, c, heq, -⟩
        cases b <;> simp_all
  | cons x t ih =>
      constructor
      · intro h
        rw [dotScan, Bool.or_eq_true] at h
        rcases h with h | h
        · rw [Bool.and_eq_true, beq_iff_eq] at h
          refine ⟨[], t, by simp [h.1], ?_⟩
          intro ht
          rw [ht] at h
          simp at h
        · obtain ⟨b, c, heq, hc⟩ := ih.mp h
          exact ⟨x :: b, c, by simp [heq], hc⟩
      · rintro ⟨b, c, heq, hc⟩
        rw [dotScan, Bool.or_eq_true]
        cases b with
        | nil =>
            simp only [List.nil_append, List.cons.injEq] at heq
            obtain ⟨hx, ht⟩ := heq
            left
            rw [Bool.and_eq_true, beq_iff_eq]
            refine ⟨hx, ?_⟩
            rw [ht]
            cases c with
            | nil => exact absurd rfl hc
            | cons z zs => rfl
        | cons y b' =>
            simp only [List.cons_append, List.cons.injEq] at heq
            obtain ⟨-, ht⟩ := heq
            exact Or.inr (ih.mpr ⟨b', c, ht, hc⟩)

/-- `hasDotSplit` finds exactly the interior dots. -/
theorem hasDotSplit_iff (l : List Char) :
    hasDotSplit l = true ↔ ∃ b c, l = b ++ '.' :: c ∧ b ≠ [] ∧ c ≠ [] := by
  cases l with
  | nil =>
      constructor
      · intro h
        simp [hasDotSplit] at h
      · rintro ⟨b, c, heq, -, -⟩
        cases b <;> simp_all
  | cons x t =>
      rw [hasDotSplit, dotScan_iff]
      constructor
      · rintro ⟨b, c, heq, hc⟩
        exact ⟨x :: b, c, by simp [heq], by simp, hc⟩
      · rintro ⟨b, c, heq, hb, hc⟩
        cases b with
        | nil => exact absurd rfl hb
        | cons y b' =>
            simp only [List.cons_append, List.cons.injEq] at heq
            exact ⟨b', c, heq.2, hc⟩

/-- `emailAfterAt` recognises exactly `[^\s@]+\.[^\s@]+`. -/
theorem emailAfterAt_iff (r : List Char) :
    emailAfterAt r = true ↔
      ∃ b c, r = b ++ '.' :: c ∧ b ≠ [] ∧ c ≠ [] ∧
        (∀ ch ∈ b, isEmailChar ch = true) ∧ (∀ ch ∈ c, isEmailChar ch = true) := by
  rw [emailAfterAt, Bool.and_eq_true, hasDotSplit_iff]
  constructor
  · rintro ⟨hall, b, c, heq, hb, hc⟩
    subst heq
    rw [List.all_eq_true] at hall
    refine ⟨b, c, rfl, hb, hc, ?_, ?_⟩
    · intro ch hch
      exact hall ch (by simp [hch])
    · intro ch hch
      exact hall ch (by simp [hch])
  · rintro ⟨b, c, heq, hb, hc, hballs, hcalls⟩
    subst heq
    refine ⟨?_, b, c, rfl, hb, hc⟩
    rw [List.all_eq_true]
    intro ch hch
    simp only [List.mem_append, List.mem_cons] at hch
    rcases hch with h | h | h
    · exact hballs ch h
    · subst h
      decide
    · exact hcalls ch h

/-- `emailRest` recognises exactly `[^\s@]*@[^\s@]+\.[^\s@]+`. -/
theorem emailRest_iff (l : List Char) :
    emailRest l = true ↔
      ∃ a r, l = a ++ '@' :: r ∧ (∀ ch ∈ a, isEmailChar ch = true) ∧
        emailAfterAt r = true := by
  induction l with
  | nil =>
      constructor
      · intro h
        simp [emailRest] at h
      · rintro ⟨a, r, heq, -, -⟩
        cases a <;> simp_all
  | cons x t ih =>
      rw [emailRest]
      by_cases hx : (x == '@') = true
      · rw [if_pos hx]
        have hx' : x = '@' := beq_iff_eq.mp hx
        constructor
        · intro h
          exact ⟨[], t, by simp [hx'], by simp, h⟩
        · rintro ⟨a, r, heq, halla, hr⟩
          cases a with
          | nil =>
              simp only [List.nil_append, List.cons.injEq] at heq
              rw [heq.2]
              exact hr
          | cons y a' =>
              simp only [List.cons_append, List.cons.injEq] at heq
              have hy : isEmailChar y = true := halla y (by simp)
              rw [← heq.1, hx'] at hy
              simp [isEmailChar] at hy
      · rw [if_neg hx, Bool.and_eq_true, ih]
        constructor
        · rintro ⟨hxchar, a, r, heq, halla, hr⟩
          refine ⟨x :: a, r, by simp [heq], ?_, hr⟩
          intro ch hch
          rcases List.mem_cons.mp hch with h | h
          · subst h
            exact hxchar
          · exact halla ch h
        · rintro ⟨a, r, heq, halla, hr⟩
          cases a with
          | nil =>
              simp only [List.nil_append, List.cons.injEq] at heq
              exact absurd (beq_iff_eq.mpr heq.1) hx
          | cons y a' =>
              simp only [List.cons_append, List.cons.injEq] at heq
              obtain ⟨hxy, ht⟩ := heq
              subst hxy
              exact ⟨halla x (by simp), a', r, ht,
                fun ch hch => halla ch (by simp [hch]), hr⟩

/-- The executable matcher recognises exactly the declarative email shape. -/
theorem emailMatchL_iff (l : List Char) : emailMatchL l = true ↔ EmailShapeL l := by
  cases l with
  | nil =>
      constructor
      · intro h
        simp [emailMatchL] at h
      · rintro ⟨a, b, c, heq, ha, -, -, -, -, -⟩
        cases a <;> simp_all
  | cons x t =>
      rw [emailMatchL, Bool.and_eq_true, emailRest_iff]
      constructor
      · rintro ⟨hxc, a, r, heq, halla, hr⟩
        rw [emailAfterAt_iff] at hr
        obtain ⟨b, c, hreq, hb, hc, hballs, hcalls⟩ := hr
        refine ⟨x :: a, b, c, ?_, by simp, hb, hc, ?_, hballs, hcalls⟩
        · simp [heq, hreq]
        · intro ch hch
          rcases List.mem_cons.mp hch with h | h
          · subst h
            exact hxc
          · exact halla ch h
      · rintro ⟨a, b, c, heq, ha, hb, hc, halla, hballs, hcalls⟩
        cases a with
        | nil => exact absurd rfl ha
        | cons y a' =>
            simp only [List.cons_append, List.cons.injEq] at heq
            obtain ⟨hxy, ht⟩ := heq
            subst hxy
            refine ⟨halla x (by simp), a', b ++ '.' :: c, ht,
              fun ch hch => halla ch (by simp [hch]), ?_⟩
            rw [emailAfterAt_iff]
            exact ⟨b, c, rfl, hb, hc, hballs, hcalls⟩

/-- A fully trimmed-away list was entirely whitespace. -/
theorem trimChars_nil_all_ws (l : List Char) (h : trimChars l = []) :
    ∀ c ∈ l, c.isWhitespace = true := by
  rw [trimChars, List.reverse_eq_nil_iff, List.dropWhile_eq_nil_iff] at h
  have hdrop : ∀ c ∈ l.dropWhile Char.isWhitespace, c.isWhitespace = true := by
    intro c hc
    exact h c (List.mem_reverse.mpr hc)
  intro c hc
  have hsplit := List.takeWhile_append_dropWhile (p := Char.isWhitespace) (l := l)
  rw [← hsplit] at hc
  rcases List.mem_append.mp hc with h1 | h1
  · exact List.mem_takeWhile_imp h1
  · exact hdrop c h1

/-- A string whose trim is empty cannot match the email regex: the shape
requires at least one non-whitespace character. -/
theorem emailShape_has_non_ws (v : String) (hshape : EmailShape v) :
    ∃ c ∈ v.data, c.isWhitespace = false := by
  obtain ⟨a, b, c, heq, ha, -, -, halla, -, -⟩ := hshape
  cases a with
  | nil => exact absurd rfl ha
  | cons y a' =>
      refine ⟨y, ?_, ?_⟩
      · rw [heq]
        simp
      · have := halla y (by simp)
        rw [isEmailChar, Bool.and_eq_true] at this
        simpa using this.1

/-- C6 helper: the name validator errors exactly on trimmed length below 2. -/
theorem nameValidator_iff (v : String) :
    (nameValidator v ≠ none) ↔ (trimChars v.data).length < 2 := by
  by_cases h1 : v = "" ∨ (trimChars v.data).length = 0
  · rw [nameValidator, if_pos h1]
    refine iff_of_true (by simp) ?_
    rcases h1 with h | h
    · subst h
      decide
    · omega
  · rw [nameValidator, if_neg h1]
    by_cases h2 : (trimChars v.data).length < 2
    · rw [if_pos h2]
      exact iff_of_true (by simp) h2
    · rw [if_neg h2]
      exact iff_of_false (by simp) h2

/-- C6 helper: the email validator errors exactly on non-matching strings. -/
theorem emailValidator_iff (v : String) :
    (emailValidator v ≠ none) ↔ ¬ EmailShape v := by
  by_cases h1 : v = "" ∨ (trimChars v.data).length = 0
  · rw [emailValidator, if_pos h1]
    refine iff_of_true (by simp) ?_
    intro hshape
    obtain ⟨c, hc, hcws⟩ := emailShape_has_non_ws v hshape
    rcases h1 with h | h
    · subst h
      simp at hc
    · have hnil : trimChars v.data = [] := List.length_eq_zero.mp h
      have := trimChars_nil_all_ws v.data hnil c hc
      rw [this] at hcws
      cases hcws
  · rw [emailValidator, if_neg h1]
    by_cases h2 : emailRegexTest v = true
    · have hs : EmailShape v := (emailMatchL_iff v.data).mp h2
      rw [h2]
      exact iff_of_false (by simp) (by simp [hs])
    · have h2' : emailRegexTest v = false := by
        cases hb : emailRegexTest v
        · rfl
        · exact absurd hb h2
      rw [h2']
      refine iff_of_true (by simp) ?_
      intro hs
      have := (emailMatchL_iff v.data).mpr hs
      rw [emailRegexTest] at h2'
      rw [this] at h2'
      cases h2'

/-- C6 helper: the message validator errors exactly on trimmed length below
10. -/
theorem messageValidator_iff (v : String) :
    (messageValidator v ≠ none) ↔ (trimChars v.data).length < 10 := by
  by_cases h1 : v = "" ∨ (trimChars v.data).length = 0
  · rw [messageValidator, if_pos h1]
    refine iff_of_true (by simp) ?_
    rcases h1 with h | h
    · subst h
      decide
    · omega
  · rw [messageValidator, if_neg h1]
    by_cases h2 : (trimChars v.data).length < 10
    · rw [if_pos h2]
      exact iff_of_true (by simp) h2
    · rw [if_neg h2]
      exact iff_of_false (by simp) h2

/-! ### C6: field validator characterization -/

/-- C6: for every input string, the name validator errors iff the trimmed
length is below 2 (including empty), the email validator errors iff the
string does not match `^[^\s@]+@[^\s@]+\.[^\s@]+$` (read declaratively as
`EmailShape`), and the message validator errors iff the trimmed length is
below 10; otherwise each validator returns no error. -/
theorem validators_characterization :
    ∀ value : String,
      ((nameValidator value ≠ none) ↔ (trimChars value.data).length < 2) ∧
      ((emailValidator value ≠ none) ↔ ¬ EmailShape value) ∧
      ((messageValidator value ≠ none) ↔ (trimChars value.data).length < 10) :=
  fun value => ⟨nameValidator_iff value, emailValidator_iff value, messageValidator_iff value⟩

/-! ### C10: the meeting platform is never null -/

/-- Every picker event preserves a non-null meeting platform: only
`platformChange` touches the field, and it always writes one of the four
enumerated values. -/
theorem pickerStep_preserves_platformSome (s : PickerState) (e : PickerEvent)
    (h : s.meetingPlatform.isSome = true) :
    (pickerStep s e).meetingPlatform.isSome = true := by
  cases e with
  | dateChange d => exact h
  | durationChange dur =>
      cases hd : s.selectedDate with
      | some d => simpa [pickerStep, hd] using h
      | none => simpa [pickerStep, hd] using h
  | slotSelect slot => exact h
  | platformChange p => simp [pickerStep]
  | clearAppointment => exact h
  | refreshSlots =>
      cases hd : s.selectedDate with
      | some d => simpa [pickerStep, hd] using h
      | none => simpa [pickerStep, hd] using h
  | fetchResolved tag slots => exact h
  | fetchFailed tag m => exact h

/-- A non-null meeting platform is preserved along any event trace. -/
theorem runPicker_preserves_platformSome (evts : List PickerEvent) (s : PickerState)
    (h : s.meetingPlatform.isSome = true) :
    (runPicker s evts).meetingPlatform.isSome = true := by
  induction evts generalizing s with
  | nil => exact h
  | cons e rest ih => exact ih (pickerStep s e) (pickerStep_preserves_platformSome s e h)

/-- The picker mounts with a non-null platform, whatever the initial
selection. -/
theorem initPicker_platformSome (initial : Option AppointmentSelection) :
    (initPicker initial).meetingPlatform.isSome = true := by
  cases hm : initial.bind (fun i => i.meetingPlatform) with
  | some p => simp [initPicker, hm]
  | none => simp [initPicker, hm]

/-- C10: from mount onward the picker's meeting platform is never null — it
starts as 'jitsi' whenever no non-null initial platform is supplied, and no
event can null it (the selector only assigns the four enumerated values,
clearing the appointment leaves it untouched); consequently the
"Please select a meeting platform" validation error never fires on a
picker-reported selection, and the platform conjunct of the
submit-enablement check is never the one that fails. -/
theorem meetingPlatform_never_null :
    ∀ (initial : Option AppointmentSelection) (evts : List PickerEvent),
      ((runPicker (initPicker initial) evts).meetingPlatform.isSome = true) ∧
      (initial.bind (fun i => i.meetingPlatform) = none →
        (initPicker initial).meetingPlatform = some .jitsi) ∧
      (∀ fd, (validateFormErrors fd
          (pickerSelection (runPicker (initPicker initial) evts))).appointment ≠
        some "Please select a meeting platform") ∧
      (((pickerSelection (runPicker (initPicker initial) evts)).selectedSlot.isSome &&
        (pickerSelection (runPicker (initPicker initial) evts)).meetingPlatform.isNone) =
        false) := by
  intro initial evts
  have hrun := runPicker_preserves_platformSome evts (initPicker initial)
    (initPicker_platformSome initial)
  obtain ⟨p, hp⟩ := Option.isSome_iff_exists.mp hrun
  refine ⟨hrun, ?_, ?_, ?_⟩
  · intro hnone
    simp [initPicker, hnone]
  · intro fd
    rw [validateFormErrors]
    simp only [pickerSelection, hp, Option.isNone_some, Bool.and_false, Bool.false_eq_true,
      if_false]
    by_cases hfirst : ((runPicker (initPicker initial) evts).selectedDate.isSome &&
        (runPicker (initPicker initial) evts).selectedSlot.isNone) = true
    · simp only [hfirst, if_true]
      decide
    · simp [hfirst]
  · simp [pickerSelection, hp]

/-- Witness for C10 at a concrete trace. -/
theorem meetingPlatform_never_null_witness :
    (runPicker (initPicker none) [.clearAppointment]).meetingPlatform.isSome = true :=
  (meetingPlatform_never_null none [.clearAppointment]).1

/-! ### C3: frame of a successful submission -/

/-- C3: on a successful submission exactly the message field of the contact
fields is cleared (name, email, honeypot unchanged), exactly the selected
slot of the appointment selection is cleared (date, duration, platform
unchanged), a confirmation summary is stored exactly when slot, date and
platform were all set, and exactly one slot re-fetch is triggered (and no
conflict timer). -/
theorem submitSuccess_frame :
    ∀ (s : ContactFormState) (resp : SubmitContactResponse),
      validateFormB s.formData s.appointmentSelection = true →
      resp.success = true →
      ((handleSubmit s (.resolved resp)).1.status = .success) ∧
      ((handleSubmit s (.resolved resp)).1.formData.message = "") ∧
      ((handleSubmit s (.resolved resp)).1.formData.name = s.formData.name) ∧
      ((handleSubmit s (.resolved resp)).1.formData.email = s.formData.email) ∧
      ((handleSubmit s (.resolved resp)).1.formData.website = s.formData.website) ∧
      ((handleSubmit s (.resolved resp)).1.appointmentSelection.selectedSlot = none) ∧
      ((handleSubmit s (.resolved resp)).1.appointmentSelection.date =
        s.appointmentSelection.date) ∧
      ((handleSubmit s (.resolved resp)).1.appointmentSelection.duration =
        s.appointmentSelection.duration) ∧
      ((handleSubmit s (.resolved resp)).1.appointmentSelection.meetingPlatform =
        s.appointmentSelection.meetingPlatform) ∧
      (∀ slot d p, s.appointmentSelection.selectedSlot = some slot →
        s.appointmentSelection.date = some d →
        s.appointmentSelection.meetingPlatform = some p →
        (handleSubmit s (.resolved resp)).1.bookedAppointment =
          some { date := d, startTime := slot.startTime,
                 duration := s.appointmentSelection.duration, platform := p }) ∧
      ((s.appointmentSelection.selectedSlot = none ∨ s.appointmentSelection.date = none ∨
          s.appointmentSelection.meetingPlatform = none) →
        (handleSubmit s (.resolved resp)).1.bookedAppointment = none) ∧
      ((handleSubmit s (.resolved resp)).2.refreshCalls = 1) ∧
      ((handleSubmit s (.resolved resp)).2.conflictTimer = none) := by
  intro s resp hval hsucc
  refine ⟨?_, ?_, ?_, ?_, ?_, ?_, ?_, ?_, ?_, ?_, ?_, ?_, ?_⟩
  · simp [handleSubmit, hval, handleSubmitStart, handleSubmitSettle, hsucc]
  · simp [handleSubmit, hval, handleSubmitStart, handleSubmitSettle, hsucc]
  · simp [handleSubmit, hval, handleSubmitStart, handleSubmitSettle, hsucc]
  · simp [handleSubmit, hval, handleSubmitStart, handleSubmitSettle, hsucc]
  · simp [handleSubmit, hval, handleSubmitStart, handleSubmitSettle, hsucc]
  · simp [handleSubmit, hval, handleSubmitStart, handleSubmitSettle, hsucc]
  · simp [handleSubmit, hval, handleSubmitStart, handleSubmitSettle, hsucc]
  · simp [handleSubmit, hval, handleSubmitStart, handleSubmitSettle, hsucc]
  · simp [handleSubmit, hval, handleSubmitStart, handleSubmitSettle, hsucc]
  · intro slot d p h1 h2 h3
    simp [handleSubmit, hval, handleSubmitStart, handleSubmitSettle, hsucc, h1, h2, h3]
  · intro hnone
    cases hsel : s.appointmentSelection.selectedSlot with
    | none => simp [handleSubmit, hval, handleSubmitStart, handleSubmitSettle, hsucc, hsel]
    | some slot =>
        cases hdate : s.appointmentSelection.date with
        | none =>
            simp [handleSubmit, hval, handleSubmitStart, handleSubmitSettle, hsucc, hsel, hdate]
        | some d =>
            cases hplat : s.appointmentSelection.meetingPlatform with
            | none =>
                simp [handleSubmit, hval, handleSubmitStart, handleSubmitSettle, hsucc,
                  hsel, hdate, hplat]
            | some p => rcases hnone with h | h | h <;> simp_all
  · simp [handleSubmit, hval, handleSubmitStart, handleSubmitSettle, hsucc]
  · simp [handleSubmit, hval, handleSubmitStart, handleSubmitSettle, hsucc]

/-- Witness for C3 at a concrete state with a full appointment chosen and a
successful backend response. -/
theorem submitSuccess_frame_witness :
    ((handleSubmit sampleBookedState (.resolved { success := true })).1.formData.message = "") ∧
    ((handleSubmit sampleBookedState
        (.resolved { success := true })).1.appointmentSelection.selectedSlot = none) ∧
    ((handleSubmit sampleBookedState (.resolved { success := true })).1.bookedAppointment =
      some { date := { day := 3, msOfDay := 0 }, startTime := "T900", duration := .d15,
             platform := .jitsi }) ∧
    ((handleSubmit sampleBookedState (.resolved { success := true })).2.refreshCalls = 1) := by
  have h := submitSuccess_frame sampleBookedState { success := true } (by decide) rfl
  exact ⟨h.2.1, h.2.2.2.2.2.1,
    h.2.2.2.2.2.2.2.2.2.1 sampleSlot { day := 3, msOfDay := 0 } .jitsi rfl rfl rfl,
    h.2.2.2.2.2.2.2.2.2.2.2.1⟩

/-! ### C5: submission status transitions -/

/-- C5: once client-side validation passes, the status is set to
`submitting`, and whatever the network outcome — resolved success, resolved
failure, a typed API error, or any other rejection — the attempt terminates
in exactly `success` or `error` and never stays `submitting`; starting a new
submission always resets the status to `submitting` regardless of the prior
value. -/
theorem submitStatus_transitions :
    ∀ (s : ContactFormState) (outcome : SubmitOutcome),
      validateFormB s.formData s.appointmentSelection = true →
      ((handleSubmitStart s).status = .submitting ∧
       ((handleSubmit s outcome).1.status = .success ∨
        (handleSubmit s outcome).1.status = .error) ∧
       (handleSubmit s outcome).1.status ≠ .submitting) := by
  intro s outcome hval
  have hterm : (handleSubmit s outcome).1.status = .success ∨
      (handleSubmit s outcome).1.status = .error := by
    cases outcome with
    | resolved resp =>
        cases hb : resp.success
        · right
          simp [handleSubmit, hval, handleSubmitStart, handleSubmitSettle, hb]
        · left
          simp [handleSubmit, hval, handleSubmitStart, handleSubmitSettle, hb]
    | rejectedApi e =>
        right
        by_cases hc : e.type = AppointmentErrorType.conflict ∧ e.updatedSlots.isSome = true
        · simp [handleSubmit, hval, handleSubmitStart, handleSubmitSettle, hc]
        · simp [handleSubmit, hval, handleSubmitStart, handleSubmitSettle, hc]
    | rejectedOther =>
        right
        simp [handleSubmit, hval, handleSubmitStart, handleSubmitSettle]
  refine ⟨rfl, hterm, ?_⟩
  rcases hterm with h | h <;> rw [h] <;> intro hcontra <;> cases hcontra

/-- Witness for C5: a concrete validated state with an unstructured
rejection ends in `error`, not `submitting`. -/
theorem submitStatus_transitions_witness :
    (handleSubmitStart sampleState).status = .submitting ∧
    ((handleSubmit sampleState .rejectedOther).1.status = .success ∨
     (handleSubmit sampleState .rejectedOther).1.status = .error) :=
  ⟨(submitStatus_transitions sampleState .rejectedOther (by decide)).1,
   (submitStatus_transitions sampleState .rejectedOther (by decide)).2.1⟩

/-! ### C4: conflict failure workflow -/

/-- C4: a 409 reply whose conflict payload reports `slot_taken` with a
replacement slot list makes the submission end in `error` with the conflict
flag set and the conflict message surfaced, triggers no immediate refresh but
schedules a single 2000 ms timer whose firing performs exactly one slot
refresh and clears the conflict flag; a conflict error without a replacement
slot list ends in `error` with no timer scheduled and the flag left clear. -/
theorem submitConflict_behavior :
    ∀ (s : ContactFormState) (data : SubmitContactResponse) (slots : List AppointmentSlot)
      (e : AppointmentAPIError),
      validateFormB s.formData s.appointmentSelection = true →
      ((data.conflict = some { reason := .slot_taken, updatedSlots := some slots } →
        ((processReply s (some (409, data))).1.status = .error ∧
         (processReply s (some (409, data))).1.conflictError = true ∧
         (processReply s (some (409, data))).1.errorMessage =
           "Sorry, this time slot was just booked. Please select another time." ∧
         (processReply s (some (409, data))).2.refreshCalls = 0 ∧
         (processReply s (some (409, data))).2.conflictTimer = some 2000 ∧
         (conflictTimerFire (processReply s (some (409, data))).1).1.conflictError = false ∧
         (conflictTimerFire (processReply s (some (409, data))).1).2.refreshCalls = 1)) ∧
       (e.type = .conflict → e.updatedSlots = none →
        ((handleSubmit s (.rejectedApi e)).1.status = .error ∧
         (handleSubmit s (.rejectedApi e)).1.conflictError = false ∧
         (handleSubmit s (.rejectedApi e)).2.refreshCalls = 0 ∧
         (handleSubmit s (.rejectedApi e)).2.conflictTimer = none))) := by
  intro s data slots e hval
  constructor
  · intro hconf
    have hclient : submitContactWithAppointment (some (409, data)) =
        .error { type := .conflict,
                 message := "Sorry, this time slot was just booked. Please select another time.",
                 retryable := true, updatedSlots := some slots } := by
      simp [submitContactWithAppointment, hconf]
    refine ⟨?_, ?_, ?_, ?_, ?_, ?_, ?_⟩ <;>
      simp [processReply, hclient, handleSubmit, hval, handleSubmitStart, handleSubmitSettle,
        conflictTimerFire]
  · intro htype hupd
    have hc : ¬ (e.type = AppointmentErrorType.conflict ∧ e.updatedSlots.isSome = true) := by
      rintro ⟨-, hsome⟩
      rw [hupd] at hsome
      cases hsome
    refine ⟨?_, ?_, ?_, ?_⟩ <;>
      simp [handleSubmit, hval, handleSubmitStart, handleSubmitSettle, hc]

/-- Witness for C4: a concrete 409 conflict reply against a validated state
schedules the 2000 ms refresh timer. -/
theorem submitConflict_behavior_witness :
    ((processReply sampleBookedState
        (some (409, { success := false,
                      conflict := some { reason := .slot_taken,
                                         updatedSlots := some [sampleSlot] } }))).1.conflictError =
      true) ∧
    ((processReply sampleBookedState
        (some (409, { success := false,
                      conflict := some { reason := .slot_taken,
                                         updatedSlots := some [sampleSlot] } }))).2.conflictTimer =
      some 2000) := by
  have h := (submitConflict_behavior sampleBookedState
    { success := false,
      conflict := some { reason := .slot_taken, updatedSlots := some [sampleSlot] } }
    [sampleSlot]
    { type := .conflict, message := "m" } (by decide)).1 rfl
  exact ⟨h.2.1, h.2.2.2.2.1⟩

/-! ### C9: submission-client error taxonomy -/

/-- C9 counterexample: the claim's mapping table fails on the code in two
places.  A 409 reply without a structured conflict payload is mapped to
`network`, not `conflict`; and on a 400 validation failure the surfaced
message is the backend's `message` field when present, not the joined
structured error list. -/
theorem submitClient_mapping_counterexample :
    (errTag (submitContactWithAppointment (some (409, { success := false }))) =
      some .network) ∧
    (errMsg (submitContactWithAppointment
        (some (400, { success := false, message := some "Invalid request",
                      errors := some ["email invalid", "name too short"] }))) =
      some "Invalid request") ∧
    ("Invalid request" ≠ "email invalid, name too short") := by
  refine ⟨rfl, rfl, by decide⟩

/-- C9 as it actually holds on the code: every failure raised by the
submission client carries one of the four discriminant tags; a 409 with a
conflict payload maps to `conflict` while a 409 without one falls through to
`network`; 429 maps to `rate_limit`; 400 maps to `validation` with the
message taken from the backend's `message` field when non-empty, else the
joined structured error list when non-empty, else a default; any other
non-ok status or unstructured failure maps to `network`. -/
theorem submitClient_error_mapping :
    ∀ (st : Nat) (data : SubmitContactResponse),
      (∀ e, submitContactWithAppointment (some (st, data)) = .error e →
        e.type = .conflict ∨ e.type = .network ∨ e.type = .validation ∨
          e.type = .rate_limit) ∧
      (st = 409 → ∀ c, data.conflict = some c →
        errTag (submitContactWithAppointment (some (st, data))) = some .conflict) ∧
      (st = 409 → data.conflict = none →
        errTag (submitContactWithAppointment (some (st, data))) = some .network) ∧
      (st = 429 → errTag (submitContactWithAppointment (some (st, data))) =
        some .rate_limit) ∧
      (st = 400 →
        errTag (submitContactWithAppointment (some (st, data))) = some .validation ∧
        errMsg (submitContactWithAppointment (some (st, data))) =
          some (jsOr data.message (jsOr (joinErrors data.errors) "Validation error"))) ∧
      (statusOk st = false → st ≠ 409 → st ≠ 429 → st ≠ 400 →
        errTag (submitContactWithAppointment (some (st, data))) = some .network) ∧
      (errTag (submitContactWithAppointment none) = some .network) := by
  intro st data
  refine ⟨?_, ?_, ?_, ?_, ?_, ?_, rfl⟩
  · intro e _
    obtain ⟨t, m, r, u⟩ := e
    cases t
    · exact Or.inl rfl
    · exact Or.inr (Or.inl rfl)
    · exact Or.inr (Or.inr (Or.inl rfl))
    · exact Or.inr (Or.inr (Or.inr rfl))
  · intro h409 c hc
    subst h409
    simp [submitContactWithAppointment, hc, errTag]
  · intro h409 hc
    subst h409
    simp [submitContactWithAppointment, afterConflictChecks, hc, errTag, statusOk]
  · intro h429
    subst h429
    cases hc : data.conflict <;>
      simp [submitContactWithAppointment, afterConflictChecks, hc, errTag]
  · intro h400
    subst h400
    cases hc : data.conflict <;>
      simp [submitContactWithAppointment, afterConflictChecks, hc, errTag, errMsg, statusOk]
  · intro hok h409 h429 h400
    have hnot : (!statusOk st) = true := by
      rw [hok]
      rfl
    rw [submitContactWithAppointment]
    rw [if_neg h409]
    rw [afterConflictChecks, if_neg h429]
    rw [if_neg (by rintro ⟨-, h⟩; exact h400 h)]
    rw [if_pos hnot]
    rfl

/-- Witness for C9 at concrete replies: a 429 maps to `rate_limit` and a 400
carrying only a structured error list surfaces the joined list. -/
theorem submitClient_error_mapping_witness :
    (errTag (submitContactWithAppointment (some (429, { success := false }))) =
      some .rate_limit) ∧
    (errMsg (submitContactWithAppointment
        (some (400, { success := false, errors := some ["e1", "e2"] }))) =
      some "e1, e2") := by
  refine ⟨(submitClient_error_mapping 429 { success := false }).2.2.2.1 rfl, ?_⟩
  have h := ((submitClient_error_mapping 400
    { success := false, errors := some ["e1", "e2"] }).2.2.2.2.1 rfl).2
  rw [h]
  rfl

end Hadoku
